import Mathlib

/-!
Verification of the media-refresh / prefetch / marquee engine of the
UBOB digital-signage client, shallowly embedded from
`src/components/ImageComponent.tsx` (the memoized carousel component) and
`src/Digital-Signage-System/app/screens/MediaScreen.tsx` (the marquee
component `OutletDisplayComponent`).

Conventions of the embedding:
* A JavaScript value of type `string | null | undefined` is an
  `Option String`; `none` covers both `null` and `undefined`, while the
  empty string is `some ""`.  JavaScript truthiness on such a value
  (`!path`, `a || b`) therefore treats both `none` and `some ""` as falsy.
* `Date.now()` is passed in explicitly as a natural-number clock value.
* React state updates that the source performs in one synchronous block
  (batched `setState` calls) are embedded as a single pure function from
  state to state.
* Template-literal interpolation of a number is modeled by `natToString`
  (decimal digits, as JavaScript prints naturals).
-/

namespace Signage

/-! ### Decimal stringification (JavaScript template literals) -/

/-- Decimal digit list of a natural number, most significant first, as
produced by JavaScript when interpolating a number into a template
literal. -/
def natDigits (n : Nat) : List Char :=
  if _h : n < 10 then [Nat.digitChar n]
  else natDigits (n / 10) ++ [Nat.digitChar (n % 10)]
termination_by n
decreasing_by
  exact Nat.div_lt_self (by omega) (by omega)

/-- String form of a natural number (decimal). -/
def natToString (n : Nat) : String :=
  String.mk (natDigits n)

/-! ### Source constants (`ImageComponent.tsx`, `MediaScreen.tsx`) -/

def SERVER_URL : String := "https://ubob-digital-signage.onrender.com"
def DISPLAY_DURATION : Nat := 5000
def FADE_DURATION : Nat := 400
/-- The `PREFETCH_BUFFER` of the carousel component (2). -/
def PREFETCH_BUFFER : Nat := 2
/-- The `PREFETCH_BUFFER` of the marquee component (5). -/
def MARQUEE_PREFETCH_BUFFER : Nat := 5
/-- Horizontal spacing added to `ITEM_W` in the marquee
(`const itemWidth = ITEM_W + 8`). -/
def MARQUEE_SPACING : Nat := 8
/-- Milliseconds of scroll per pixel (`const duration = originalWidth * 25`). -/
def MS_PER_PIXEL : Nat := 25

/-! ### Data model -/

/-- One promotional media asset (carousel), from the `MediaItem`
interface of `ImageComponent.tsx`. -/
structure MediaItem where
  name : Option String := none
  description : Option String := none
  image : Option String := none
  date_start : Option String := none
  date_end : Option String := none
deriving Repr, DecidableEq

/-- One outlet branding asset (marquee), from the `ImageItem`
interface of `MediaScreen.tsx`. -/
structure ImageItem where
  id : Option String := none
  image : Option String := none
  outlet_name : Option String := none
  outlet_id : Option String := none
deriving Repr, DecidableEq

/-! ### Reference resolution (`getImageUrl`)

Both components define the identical helper:

```
const getImageUrl = (path?, bustCache = false) => {
  if (!path) return null;
  if (path.startsWith("http")) {
    return bustCache ? path + "?t=" + Date.now() : path;
  }
  return bustCache ? SERVER_URL + path + "?t=" + Date.now()
                   : SERVER_URL + path;
};
```

`now` stands for the value of `Date.now()` at the moment of the call. -/

def getImageUrl (path : Option String) (bustCache : Bool) (now : Nat) :
    Option String :=
  match path with
  | none => none
  | some p =>
    if p = "" then none
    else if p.startsWith "http" then
      some (if bustCache then p ++ "?t=" ++ natToString now else p)
    else
      some (if bustCache then SERVER_URL ++ p ++ "?t=" ++ natToString now
            else SERVER_URL ++ p)

/-! ### Carousel refresh (`fetchMediaList` in `ImageComponent.tsx`)

`fetchMediaList` aborts any previous request, issues a fetch, and in its
continuation does (for a mounted component):

```
if (!response.ok) console.log("HTTP " + response.status);   // log only
const data = await response.json();
const items = data.media || [];
if (items.length === 0) console.error("Error: No media found"); // log only
setMediaList(items); setErrorVisible(false); setCurrentIndex(0);
// catch: AbortError ignored; otherwise
//   if (mediaList.length === 0) setErrorVisible(true);
// finally: setLoading(false)
```
-/

/-- The carousel display state touched by `fetchMediaList` (the three
batched `setState` calls plus `loading`). -/
structure FetchState where
  mediaList : List MediaItem
  currentIndex : Nat
  errorVisible : Bool
  loading : Bool
deriving Repr, DecidableEq

/-- How one `fetch` of the media endpoint can come back:
a thrown transport or JSON-parse error, or a parsed JSON body carrying
`response.ok` and the optional `media` array. Abortion is handled
separately by the request-tracking layer. -/
inductive FetchOutcome where
  | networkError : FetchOutcome
  | httpResponse (ok : Bool) (media : Option (List MediaItem)) : FetchOutcome
deriving Repr, DecidableEq

/-- The continuation of `fetchMediaList` applied to a mounted component.
A non-ok status and an empty `media` array are only logged: every parsed
body reaches the `setMediaList / setErrorVisible(false) /
setCurrentIndex(0)` block.  A thrown error sets `errorVisible` only when
no items are held.  `finally` clears `loading` in all cases. -/
def applyFetchResult (s : FetchState) (o : FetchOutcome) : FetchState :=
  match o with
  | .networkError =>
    if s.mediaList.isEmpty then
      { s with errorVisible := true, loading := false }
    else
      { s with loading := false }
  | .httpResponse _ media =>
    { s with
      mediaList := media.getD []
      errorVisible := false
      currentIndex := 0
      loading := false }

/-! ### Request supersession (`AbortController` per request)

`fetchMediaList` begins with

```
if (abortControllerRef.current) abortControllerRef.current.abort();
abortControllerRef.current = new AbortController();
```

and its catch clause silently returns on `err.name === "AbortError"`.
Requests are identified by numbers; `latest` is the controller currently
in `abortControllerRef`, and `aborted` collects the ids whose controller
has been aborted.  A resolution of an aborted request raises
`AbortError`, whose handler only runs the `finally` block. -/

structure Engine where
  fetch : FetchState
  latest : Option Nat
  aborted : List Nat
deriving Repr, DecidableEq

/-- An asynchronous event at the engine: a refresh being issued
(synchronously aborting the previous controller), or the response of an
issued request arriving with some outcome. -/
inductive Event where
  | issue (id : Nat) : Event
  | resolve (id : Nat) (o : FetchOutcome) : Event
deriving Repr, DecidableEq

def stepEvent (e : Engine) : Event → Engine
  | .issue i =>
    { e with
      aborted := match e.latest with
        | some l => l :: e.aborted
        | none => e.aborted
      latest := some i }
  | .resolve i o =>
    if i ∈ e.aborted then
      { e with fetch := { e.fetch with loading := false } }
    else
      { e with fetch := applyFetchResult e.fetch o }

def runTrace (e : Engine) (evs : List Event) : Engine :=
  evs.foldl stepEvent e

/-! ### Carousel prefetch (`prefetchImages` in `ImageComponent.tsx`)

```
const prefetchImages = (startIndex, count) => {
  if (mediaList.length === 0) return;
  const prefetchPromises = [];
  for (let i = 0; i < count; i++) {
    const index = (startIndex + 1) % mediaList.length;   // i is unused
    const url = getImageUrl(mediaList[index]?.image);
    if (url) prefetchPromises.push(Image.prefetch(url).catch(() => null));
  }
  ...
};
```

The embedding returns the list of URLs handed to `Image.prefetch`, in
order.  `getImageUrl` is called with `bustCache` defaulted to `false`,
so the clock argument is irrelevant and fixed to `0`. -/

def prefetchImages (mediaList : List MediaItem) (startIndex count : Nat) :
    List String :=
  if mediaList.length = 0 then []
  else
    (List.range count).filterMap (fun _ =>
      getImageUrl
        ((mediaList.get? ((startIndex + 1) % mediaList.length)).bind
          MediaItem.image)
        false 0)

/-! ### Carousel transition (`advanceOnce` in `ImageComponent.tsx`)

```
const advanceOnce = () => {
  if (mediaList.length <= 1) return;
  const nextIndex = (currentIndex + 1) % mediaList.length;
  prefetchImages(nextIndex, PREFETCH_BUFFER);
  Animated.timing(fadeAnim, { toValue: 0, duration: FADE_DURATION,
      easing: Easing.linear, ... }).start(() => {
    if (!isMounted.current) return;
    setCurrentIndex(nextIndex);
    Animated.timing(fadeAnim, { toValue: 1, duration: FADE_DURATION,
        easing: Easing.linear, ... }).start();
  });
};
```

The fade is embedded as an explicit phase with an elapsed-milliseconds
counter; `animStep` advances the animation by one millisecond.  The
index swap happens exactly when the fade-out completes, after which the
fade-in starts from opacity `0`.  Starting `Animated.timing` on a value
that is already animating interrupts the running animation, which is how
a fresh call to `advanceOnce` restarts the fade from the beginning. -/

inductive Phase where
  | idle : Phase
  | fadingOut (nextIndex : Nat) (elapsed : Nat) : Phase
  | fadingIn (elapsed : Nat) : Phase
deriving Repr, DecidableEq

structure Carousel where
  mediaList : List MediaItem
  currentIndex : Nat
  phase : Phase
deriving Repr, DecidableEq

/-- The function `advanceOnce` for a mounted component: returns the updated carousel
together with the list of URLs dispatched to the prefetch subsystem.
The only guard in the source is the item count. -/
def advanceOnce (c : Carousel) : Carousel × List String :=
  if c.mediaList.length ≤ 1 then (c, [])
  else
    let nextIndex := (c.currentIndex + 1) % c.mediaList.length
    ({ c with phase := Phase.fadingOut nextIndex 0 },
     prefetchImages c.mediaList nextIndex PREFETCH_BUFFER)

/-- One millisecond of animation progress.  Completing the fade-out
swaps `currentIndex` to the stored next index and starts the fade-in;
completing the fade-in returns to `idle`. -/
def animStep (c : Carousel) : Carousel :=
  match c.phase with
  | .idle => c
  | .fadingOut n e =>
    if FADE_DURATION ≤ e + 1 then
      { c with currentIndex := n, phase := Phase.fadingIn 0 }
    else
      { c with phase := Phase.fadingOut n (e + 1) }
  | .fadingIn e =>
    if FADE_DURATION ≤ e + 1 then
      { c with phase := Phase.idle }
    else
      { c with phase := Phase.fadingIn (e + 1) }

/-- Opacity of the displayed card: the linear-easing value of `fadeAnim`
at the given point of the transition. -/
def opacity : Phase → ℚ
  | .idle => 1
  | .fadingOut _ e =>
    if FADE_DURATION ≤ e then 0 else 1 - (e : ℚ) / (FADE_DURATION : ℚ)
  | .fadingIn e =>
    if FADE_DURATION ≤ e then 1 else (e : ℚ) / (FADE_DURATION : ℚ)

/-- A transition (fade-out, swap, fade-in) started at time `start` is
active at time `t` for `2 * FADE_DURATION` milliseconds. -/
def transitionActive (start t : Nat) : Prop :=
  start ≤ t ∧ t < start + 2 * FADE_DURATION

instance (start t : Nat) : Decidable (transitionActive start t) := by
  unfold transitionActive
  infer_instance

/-! ### Marquee component (`OutletDisplayComponent` in `MediaScreen.tsx`) -/

/-- The marquee display state touched by `fetchOutletImages`:
`images`, the per-item error set `imageErrors`, the per-generation
`prefetchCache` ref, and `loading`.  The JavaScript `Set<string>` values
are modeled as lists with membership. -/
structure MarqueeState where
  images : List ImageItem
  imageErrors : List String
  prefetchCache : List String
  loading : Bool
deriving Repr, DecidableEq

/-- Outcome of one fetch of the outlet-image endpoint (abortion handled
by the same request-tracking layer as the carousel). -/
inductive OutletOutcome where
  | networkError : OutletOutcome
  | httpResponse (ok : Bool) (media : Option (List ImageItem)) : OutletOutcome
deriving Repr, DecidableEq

/-- The continuation of `fetchOutletImages` for a mounted component:

```
if (!response.ok) throw new Error("HTTP " + response.status);
const data = await response.json();
const items = data.media || [];
if (items.length === 0) throw new Error("No Images found");
setImages(items);
setImageErrors(new Set());          // reset errors
prefetchCache.current.clear();      // clear the current cache
// catch: AbortError returns; otherwise log only
// finally: setLoading(false)
```

Unlike the carousel, a non-ok status and an empty list both throw, so
the held list survives them. -/
def applyOutletFetchResult (s : MarqueeState) (o : OutletOutcome) :
    MarqueeState :=
  match o with
  | .networkError => { s with loading := false }
  | .httpResponse ok media =>
    if ok then
      let items := media.getD []
      if items.isEmpty then { s with loading := false }
      else
        { s with
          images := items
          imageErrors := []
          prefetchCache := []
          loading := false }
    else { s with loading := false }

/-- The function `smartPrefetchForMarquee`:

```
if (images.length === 0) return;
const urlsToPrefetch = [];
for (let i = 0; i < Math.min(PREFETCH_BUFFER, images.length); i++) {
  const url = getImageUrl(images[i]?.image);
  if (url && !prefetchCache.current.has(url)) {
    urlsToPrefetch.push(url);
    prefetchCache.current.add(url);
  }
}
... urlsToPrefetch.map(url => Image.prefetch(url).catch(() => null)) ...
```

Returns the pair (urls dispatched to `Image.prefetch`, updated
`prefetchCache`).  With `images = []` the loop body runs zero times, so
the early return needs no special case. -/
def smartPrefetchStep (images : List ImageItem)
    (acc : List String × List String) (i : Nat) :
    List String × List String :=
  match getImageUrl ((images.get? i).bind ImageItem.image) false 0 with
  | none => acc
  | some url =>
    if url ∈ acc.2 then acc else (acc.1 ++ [url], acc.2 ++ [url])

def smartPrefetchForMarquee (images : List ImageItem)
    (cache : List String) : List String × List String :=
  (List.range (min MARQUEE_PREFETCH_BUFFER images.length)).foldl
    (smartPrefetchStep images) ([], cache)

/-! ### Marquee scroll geometry

```
const itemWidth = ITEM_W + 8;
const originalWidth = images.length * itemWidth;
const duration = originalWidth * 25;
const startInfiniteScroll = () => {
  scrollX.setValue(0);
  const animate = () => {
    Animated.timing(scrollX, { toValue: -originalWidth, duration,
        easing: Easing.linear, ... }).start(({ finished }) => {
      if (finished && isMounted.current) {
        scrollX.setValue(0);
        smartPrefetchForMarquee();
        animate();
      }
    });
  };
  animate();
};
```

`itemW` stands for the source value `ITEM_W` (a layout quantity). -/

/-- The value `originalWidth`: total width of one copy of the strip. -/
def originalWidth (n itemW : Nat) : Nat :=
  n * (itemW + MARQUEE_SPACING)

/-- The value `duration`: milliseconds for one full loop. -/
def scrollDuration (n itemW : Nat) : Nat :=
  originalWidth n itemW * MS_PER_PIXEL

/-- Value of `scrollX` at time `t` (milliseconds after the loop started),
under the infinite restart: within each cycle the offset moves linearly
from `0` to `-originalWidth`, and at each cycle boundary it is instantly
reset to `0`. -/
def scrollOffset (n itemW t : Nat) : ℚ :=
  if scrollDuration n itemW = 0 then 0
  else
    -((originalWidth n itemW : ℚ) *
      ((t % scrollDuration n itemW : Nat) : ℚ) /
      (scrollDuration n itemW : ℚ))

/-- The completion callback restarts the loop only when the animation
finished on its own and the component is still mounted
(`if (finished && isMounted.current)`). -/
def marqueeRestarts (finished mounted : Bool) : Bool :=
  finished && mounted

/-! ### Marquee rendering: doubled list, identity, error tracking

```
const duplicatedImages = [...images, ...images];
...
{duplicatedImages.map((item, i) => {
  const imageId = item.id || item.outlet_id || `image-${i}`;
  const uri = getImageUrl(item.image);
  const hasError = imageErrors.has(imageId);
  return (
    <View key={`${imageId}-${i}`} ...>
      ... onError={... handleImageError(imageId)}
          onLoadStart={() => { if (imageErrors.has(imageId)) {
            ... next.delete(imageId); ... } }} ...
  );
})}
```
-/

/-- The doubled render list. -/
def duplicatedImages (images : List ImageItem) : List ImageItem :=
  images ++ images

/-- JavaScript `a || b` on optional strings: `none` and the empty string
are falsy. -/
def jsOr (a b : Option String) : Option String :=
  match a with
  | none => b
  | some s => if s = "" then b else some s

/-- The expression `item.id || item.outlet_id || "image-" + i`: the three-tier identity
of the element at position `i` of the doubled render list.  The `||`
chain associates as `(id || outlet_id) || fallback`, and the fallback
template literal is never empty, so the outer `jsOr` always yields a
value; the `none` arm is unreachable and repeats the fallback. -/
def imageId (item : ImageItem) (i : Nat) : String :=
  match jsOr (jsOr item.id item.outlet_id)
      (some ("image-" ++ natToString i)) with
  | some s => s
  | none => "image-" ++ natToString i

/-- The React `key` of the element at position `i`:
`imageId + "-" + i`. -/
def renderKey (item : ImageItem) (i : Nat) : String :=
  imageId item i ++ "-" ++ natToString i

/-- The handler `handleImageError`: add the identity to the error set. -/
def handleImageError (errors : List String) (id : String) : List String :=
  if id ∈ errors then errors else id :: errors

/-- The `onLoadStart` handler: remove the identity from the error set if
present. -/
def onLoadStart (errors : List String) (id : String) : List String :=
  if id ∈ errors then errors.erase id else errors

/-- The flag `hasError` as consulted by the renderer for position `i`. -/
def hasError (errors : List String) (item : ImageItem) (i : Nat) : Bool :=
  decide (imageId item i ∈ errors)

/-! ### Auxiliary definitions used only by the statements and proofs -/

/-- Decimal value of a digit list (used to show `natDigits` is
injective). -/
def valList (l : List Char) : Nat :=
  l.foldl (fun a c => 10 * a + (c.toNat - 48)) 0

/-- The base URL `getImageUrl` resolves a non-empty path to, before any
cache-busting parameter: the path itself when it starts with `http`,
otherwise the server base concatenated with the path. -/
def resolvedBase (p : String) : String :=
  if p.startsWith "http" then p else SERVER_URL ++ p

/-- Modelled from the words of the claim for comparison: the identity
rule read literally as `id` if present (non-`null`), else `outlet_id` if
present, else the positional fallback, with no regard to JavaScript
falsiness of the empty string. -/
def claimImageId (item : ImageItem) (i : Nat) : String :=
  match item.id with
  | some s => s
  | none =>
    match item.outlet_id with
    | some s => s
    | none => "image-" ++ natToString i

/-- Concrete media items used to evaluate the engine on explicit
inputs. -/
def mediaA : MediaItem := ⟨some "A", none, some "/a", none, none⟩

def mediaB : MediaItem := ⟨some "B", none, some "/b", none, none⟩

def mediaC : MediaItem := ⟨some "C", none, some "/c", none, none⟩

/-- Concrete outlet items used to evaluate the marquee on explicit
inputs. -/
def outletA : ImageItem := ⟨some "ida", some "/oa", some "Outlet A", some "1"⟩

def outletB : ImageItem := ⟨some "idb", some "/ob", some "Outlet B", some "2"⟩

/-! ## Lemmas about decimal stringification -/

lemma natDigits_of_lt (n : Nat) (h : n < 10) :
    natDigits n = [Nat.digitChar n] := by
  unfold natDigits
  simp [h]

lemma natDigits_of_ge (n : Nat) (h : ¬ n < 10) :
    natDigits n = natDigits (n / 10) ++ [Nat.digitChar (n % 10)] := by
  conv_lhs => unfold natDigits
  simp [h]

lemma digitChar_toNat (d : Nat) (h : d < 10) :
    (Nat.digitChar d).toNat - 48 = d := by
  interval_cases d <;> rfl

lemma digitChar_ne_dash (d : Nat) (h : d < 10) :
    Nat.digitChar d ≠ '-' := by
  interval_cases d <;> decide

lemma valList_append_singleton (l : List Char) (c : Char) :
    valList (l ++ [c]) = 10 * valList l + (c.toNat - 48) := by
  unfold valList
  rw [List.foldl_append]
  rfl

lemma valList_natDigits (n : Nat) : valList (natDigits n) = n := by
  induction n using Nat.strong_induction_on with
  | _ n ih =>
    by_cases h : n < 10
    · rw [natDigits_of_lt n h]
      show 10 * 0 + ((Nat.digitChar n).toNat - 48) = n
      rw [digitChar_toNat n h]
      omega
    · rw [natDigits_of_ge n h, valList_append_singleton,
        ih (n / 10) (Nat.div_lt_self (by omega) (by omega)),
        digitChar_toNat (n % 10) (Nat.mod_lt n (by omega))]
      omega

lemma natDigits_injective : Function.Injective natDigits := by
  intro m n h
  have := congrArg valList h
  rwa [valList_natDigits, valList_natDigits] at this

lemma natDigits_ne_dash (n : Nat) : ∀ c ∈ natDigits n, c ≠ '-' := by
  induction n using Nat.strong_induction_on with
  | _ n ih =>
    by_cases h : n < 10
    · rw [natDigits_of_lt n h]
      intro c hc
      simp at hc
      subst hc
      exact digitChar_ne_dash n h
    · rw [natDigits_of_ge n h]
      intro c hc
      rcases List.mem_append.mp hc with h1 | h2
      · exact ih (n / 10) (Nat.div_lt_self (by omega) (by omega)) c h1
      · simp at h2
        subst h2
        exact digitChar_ne_dash (n % 10) (Nat.mod_lt n (by omega))

lemma natToString_injective : Function.Injective natToString := by
  intro m n h
  apply natDigits_injective
  have := congrArg String.data h
  simpa [natToString] using this

/-! ## Uniqueness of render keys -/

lemma takeWhile_append_cons (p : Char → Bool) (l : List Char) (c : Char)
    (m : List Char) (hl : ∀ a ∈ l, p a = true) (hc : p c = false) :
    List.takeWhile p (l ++ c :: m) = l := by
  induction l with
  | nil => simp [List.takeWhile_cons, hc]
  | cons a l ihl =>
    have ha : p a = true := hl a (by simp)
    simp only [List.cons_append, List.takeWhile_cons, ha, if_true]
    rw [ihl (fun x hx => hl x (by simp [hx]))]

lemma append_dash_cancel (a b x y : List Char)
    (hx : ∀ c ∈ x, c ≠ '-') (hy : ∀ c ∈ y, c ≠ '-')
    (h : a ++ '-' :: x = b ++ '-' :: y) : x = y := by
  have hrev := congrArg List.reverse h
  simp only [List.reverse_append, List.reverse_cons] at hrev
  have hx' : ∀ c ∈ x.reverse, (c != '-') = true := by
    intro c hc
    simpa using hx c (List.mem_reverse.mp hc)
  have hy' : ∀ c ∈ y.reverse, (c != '-') = true := by
    intro c hc
    simpa using hy c (List.mem_reverse.mp hc)
  have hdash : (('-' : Char) != '-') = false := by decide
  have h1 :
      List.takeWhile (fun c => c != '-') (x.reverse ++ '-' :: a.reverse) =
        x.reverse := takeWhile_append_cons _ _ _ _ hx' hdash
  have h2 :
      List.takeWhile (fun c => c != '-') (y.reverse ++ '-' :: b.reverse) =
        y.reverse := takeWhile_append_cons _ _ _ _ hy' hdash
  have hxy : x.reverse = y.reverse := by
    rw [← h1, ← h2]
    congr 1
    simpa [List.append_assoc] using hrev
  simpa using congrArg List.reverse hxy

lemma renderKey_data (item : ImageItem) (i : Nat) :
    (renderKey item i).data = (imageId item i).data ++ '-' :: natDigits i := by
  simp [renderKey, natToString, String.data_append]

/-- Distinct positions of a render pass always get distinct keys, no
matter which items occupy them: the position is recoverable from the
suffix of the key after its last dash. -/
lemma renderKey_position_injective (it1 it2 : ImageItem) (i j : Nat)
    (h : renderKey it1 i = renderKey it2 j) : i = j := by
  have hd := congrArg String.data h
  rw [renderKey_data, renderKey_data] at hd
  exact natDigits_injective
    (append_dash_cancel _ _ _ _ (natDigits_ne_dash i) (natDigits_ne_dash j) hd)

/-! ## Lemmas about the fade transition -/

lemma animIter_fadingOut (c : Carousel) (n j k : Nat)
    (h : j + k < FADE_DURATION) :
    animStep^[k] { c with phase := Phase.fadingOut n j } =
      { c with phase := Phase.fadingOut n (j + k) } := by
  induction k generalizing j with
  | zero => simp
  | succ k ihk =>
    rw [Function.iterate_succ_apply]
    have hj1 : ¬ FADE_DURATION ≤ j + 1 := by omega
    have hstep : animStep { c with phase := Phase.fadingOut n j } =
        { c with phase := Phase.fadingOut n (j + 1) } := by
      simp [animStep, hj1]
    have harith : j + (k + 1) = (j + 1) + k := by omega
    rw [hstep, harith]
    exact ihk (j + 1) (by omega)

lemma animStep_fadingOut_complete (c : Carousel) (n j : Nat)
    (h : FADE_DURATION ≤ j + 1) :
    animStep { c with phase := Phase.fadingOut n j } =
      { c with currentIndex := n, phase := Phase.fadingIn 0 } := by
  simp [animStep, h]

lemma animIter_fadingIn (c : Carousel) (j k : Nat)
    (h : j + k < FADE_DURATION) :
    animStep^[k] { c with phase := Phase.fadingIn j } =
      { c with phase := Phase.fadingIn (j + k) } := by
  induction k generalizing j with
  | zero => simp
  | succ k ihk =>
    rw [Function.iterate_succ_apply]
    have hj1 : ¬ FADE_DURATION ≤ j + 1 := by omega
    have hstep : animStep { c with phase := Phase.fadingIn j } =
        { c with phase := Phase.fadingIn (j + 1) } := by
      simp [animStep, hj1]
    have harith : j + (k + 1) = (j + 1) + k := by omega
    rw [hstep, harith]
    exact ihk (j + 1) (by omega)

lemma animStep_fadingIn_complete (c : Carousel) (j : Nat)
    (h : FADE_DURATION ≤ j + 1) :
    animStep { c with phase := Phase.fadingIn j } =
      { c with phase := Phase.idle } := by
  simp [animStep, h]

lemma animIter_fadeOut_swap (c : Carousel) (n : Nat) :
    animStep^[FADE_DURATION] { c with phase := Phase.fadingOut n 0 } =
      { c with currentIndex := n, phase := Phase.fadingIn 0 } := by
  have hsplit : FADE_DURATION = (FADE_DURATION - 1) + 1 := by
    simp [FADE_DURATION]
  rw [hsplit, Function.iterate_succ_apply',
    animIter_fadingOut c n 0 (FADE_DURATION - 1) (by simp [FADE_DURATION])]
  simp only [Nat.zero_add]
  exact animStep_fadingOut_complete c n (FADE_DURATION - 1)
    (by simp [FADE_DURATION])

lemma opacity_fadingOut_pos (n k : Nat) (h : k < FADE_DURATION) :
    opacity (Phase.fadingOut n k) = 1 - (k : ℚ) / (FADE_DURATION : ℚ) ∧
      0 < opacity (Phase.fadingOut n k) := by
  have hk : ¬ FADE_DURATION ≤ k := by omega
  constructor
  · simp [opacity, hk]
  · have hq : (k : ℚ) / (FADE_DURATION : ℚ) < 1 := by
      rw [div_lt_one (by norm_num [FADE_DURATION])]
      exact_mod_cast h
    simp [opacity, hk]
    linarith

lemma animIter_fadeIn_complete (c : Carousel) :
    animStep^[FADE_DURATION] { c with phase := Phase.fadingIn 0 } =
      { c with phase := Phase.idle } := by
  have hsplit : FADE_DURATION = (FADE_DURATION - 1) + 1 := by
    simp [FADE_DURATION]
  rw [hsplit, Function.iterate_succ_apply',
    animIter_fadingIn c 0 (FADE_DURATION - 1) (by simp [FADE_DURATION])]
  simp only [Nat.zero_add]
  exact animStep_fadingIn_complete c (FADE_DURATION - 1)
    (by simp [FADE_DURATION])

lemma animIter_fadingIn_mk (ml : List MediaItem) (idx j k : Nat)
    (h : j + k < FADE_DURATION) :
    animStep^[k] (⟨ml, idx, Phase.fadingIn j⟩ : Carousel) =
      ⟨ml, idx, Phase.fadingIn (j + k)⟩ :=
  animIter_fadingIn ⟨ml, idx, Phase.fadingIn j⟩ j k h

lemma animIter_fadeIn_complete_mk (ml : List MediaItem) (idx : Nat) :
    animStep^[FADE_DURATION] (⟨ml, idx, Phase.fadingIn 0⟩ : Carousel) =
      ⟨ml, idx, Phase.idle⟩ :=
  animIter_fadeIn_complete ⟨ml, idx, Phase.fadingIn 0⟩

lemma opacity_fadingIn_lt (k : Nat) (h : k < FADE_DURATION) :
    opacity (Phase.fadingIn k) = (k : ℚ) / (FADE_DURATION : ℚ) := by
  have hk : ¬ FADE_DURATION ≤ k := by omega
  simp [opacity, hk]

/-! ## Claim theorems -/

/-- Claim C1 (code bug): the never-blank rule fails in the carousel.
A refresh that resolves with HTTP 2xx and a well-formed EMPTY media
list, while two items are held and displayed, replaces the held list by
the empty list, resets the index, and clears `errorVisible`; the same
happens for a non-2xx response whose body still parses, since
`fetchMediaList` only logs `!response.ok` and `items.length === 0` and
then applies the parsed list unconditionally.  The previously displayed
content is dropped, contradicting the rule that a failure outcome leaves
held items and the display unchanged. -/
theorem empty_fetch_blanks_display :
    applyFetchResult ⟨[mediaA, mediaB], 1, false, false⟩
        (FetchOutcome.httpResponse true (some [])) =
      ⟨[], 0, false, false⟩ ∧
    applyFetchResult ⟨[mediaA, mediaB], 1, false, false⟩
        (FetchOutcome.httpResponse false (some [])) =
      ⟨[], 0, false, false⟩ ∧
    ([mediaA, mediaB] : List MediaItem) ≠ [] := by
  refine ⟨?_, ?_, ?_⟩ <;> decide

/-- Claim C2 (confirmed): a refresh B issued while refresh A is in
flight aborts A through the per-request `AbortController`; the late
resolution of A is dropped by the `AbortError` guard (only `loading` is
touched, by `finally`), and in both completion orders the held items end
up equal to the result of B. -/
theorem superseded_refresh_suppressed (s : FetchState) (A B : Nat)
    (hAB : A ≠ B) (oA : FetchOutcome) (items : List MediaItem) :
    (stepEvent (runTrace ⟨s, none, []⟩ [Event.issue A, Event.issue B])
        (Event.resolve A oA)).fetch =
      { (runTrace ⟨s, none, []⟩ [Event.issue A, Event.issue B]).fetch with
        loading := false } ∧
    (runTrace ⟨s, none, []⟩
        [Event.issue A, Event.issue B, Event.resolve A oA,
          Event.resolve B (FetchOutcome.httpResponse true (some items))]).fetch.mediaList
      = items ∧
    (runTrace ⟨s, none, []⟩
        [Event.issue A, Event.issue B,
          Event.resolve B (FetchOutcome.httpResponse true (some items)),
          Event.resolve A oA]).fetch.mediaList = items := by
  have hBA : B ≠ A := hAB.symm
  refine ⟨?_, ?_, ?_⟩ <;>
    simp [runTrace, stepEvent, applyFetchResult, hBA]

/-- Witness for C2 at concrete requests 0 and 1: the slow result of
request 0 is dropped and the final items are those of request 1. -/
theorem superseded_refresh_suppressed_witness :
    (0 : Nat) ≠ 1 ∧
    (runTrace ⟨⟨[], 0, false, true⟩, none, []⟩
        [Event.issue 0, Event.issue 1,
          Event.resolve 0 (FetchOutcome.httpResponse true (some [mediaC])),
          Event.resolve 1 (FetchOutcome.httpResponse true (some [mediaA]))]).fetch.mediaList
      = [mediaA] :=
  ⟨by decide,
    (superseded_refresh_suppressed ⟨[], 0, false, true⟩ 0 1 (by decide)
      (FetchOutcome.httpResponse true (some [mediaC])) [mediaA]).2.1⟩

/-- Claim C3 (confirmed): a successful refresh with a non-empty list is
applied as one batched state update: the carousel holds exactly the new
items with `currentIndex = 0` (in range for the new list) and
`errorVisible = false`; the marquee holds exactly the new items with the
per-item error set and the PrefetchCache generation cleared. -/
theorem refresh_success_atomic (s : FetchState) (ms : MarqueeState)
    (it : MediaItem) (rest : List MediaItem) (oit : ImageItem)
    (orest : List ImageItem) :
    (applyFetchResult s
        (FetchOutcome.httpResponse true (some (it :: rest)))).mediaList
      = it :: rest ∧
    (applyFetchResult s
        (FetchOutcome.httpResponse true (some (it :: rest)))).currentIndex
      = 0 ∧
    (applyFetchResult s
        (FetchOutcome.httpResponse true (some (it :: rest)))).errorVisible
      = false ∧
    (applyFetchResult s
        (FetchOutcome.httpResponse true (some (it :: rest)))).currentIndex
      < (it :: rest).length ∧
    (applyOutletFetchResult ms
        (OutletOutcome.httpResponse true (some (oit :: orest)))).images
      = oit :: orest ∧
    (applyOutletFetchResult ms
        (OutletOutcome.httpResponse true (some (oit :: orest)))).prefetchCache
      = [] ∧
    (applyOutletFetchResult ms
        (OutletOutcome.httpResponse true (some (oit :: orest)))).imageErrors
      = [] := by
  refine ⟨?_, ?_, ?_, ?_, ?_, ?_, ?_⟩ <;>
    simp [applyFetchResult, applyOutletFetchResult]

/-- Claim C4 (confirmed): `advanceOnce` is a no-op with fewer than two
items; otherwise it computes `nextIndex = (currentIndex + 1) mod len`,
dispatches the prefetch look-ahead for `nextIndex`, fades opacity from 1
to 0 over `FADE_DURATION` with the linear easing value, swaps
`currentIndex` to `nextIndex` exactly when the fade-out completes (at
opacity 0), then fades opacity from 0 to 1 over the same duration; while
opacity is still positive before the swap the displayed index is
unchanged. -/
theorem advance_fade_semantics :
    (∀ c : Carousel, c.mediaList.length ≤ 1 → advanceOnce c = (c, [])) ∧
    ∀ c : Carousel, 2 ≤ c.mediaList.length →
      (advanceOnce c).2 =
        prefetchImages c.mediaList
          ((c.currentIndex + 1) % c.mediaList.length) PREFETCH_BUFFER ∧
      (advanceOnce c).1.mediaList = c.mediaList ∧
      (advanceOnce c).1.currentIndex = c.currentIndex ∧
      (advanceOnce c).1.phase =
        Phase.fadingOut ((c.currentIndex + 1) % c.mediaList.length) 0 ∧
      (∀ k, k < FADE_DURATION →
        (animStep^[k] (advanceOnce c).1).currentIndex = c.currentIndex ∧
        opacity (animStep^[k] (advanceOnce c).1).phase =
          1 - (k : ℚ) / (FADE_DURATION : ℚ) ∧
        0 < opacity (animStep^[k] (advanceOnce c).1).phase) ∧
      (animStep^[FADE_DURATION] (advanceOnce c).1).currentIndex =
        (c.currentIndex + 1) % c.mediaList.length ∧
      opacity (animStep^[FADE_DURATION] (advanceOnce c).1).phase = 0 ∧
      ∀ m, m ≤ FADE_DURATION →
        (animStep^[FADE_DURATION + m] (advanceOnce c).1).currentIndex =
          (c.currentIndex + 1) % c.mediaList.length ∧
        opacity (animStep^[FADE_DURATION + m] (advanceOnce c).1).phase =
          (m : ℚ) / (FADE_DURATION : ℚ) := by
  constructor
  · intro c h
    simp [advanceOnce, h]
  · intro c h
    have hn : ¬ c.mediaList.length ≤ 1 := by omega
    have ha : advanceOnce c =
        ({ c with phase :=
            Phase.fadingOut ((c.currentIndex + 1) % c.mediaList.length) 0 },
          prefetchImages c.mediaList
            ((c.currentIndex + 1) % c.mediaList.length) PREFETCH_BUFFER) := by
      simp [advanceOnce, hn]
    rw [ha]
    refine ⟨rfl, rfl, rfl, rfl, ?_, ?_, ?_, ?_⟩
    · intro k hk
      rw [animIter_fadingOut c _ 0 k (by omega)]
      have hop := opacity_fadingOut_pos
        ((c.currentIndex + 1) % c.mediaList.length) k hk
      exact ⟨rfl, by simpa using hop.1, by simpa using hop.2⟩
    · rw [animIter_fadeOut_swap]
    · rw [animIter_fadeOut_swap]
      simp [opacity, FADE_DURATION]
    · intro m hm
      rw [Nat.add_comm FADE_DURATION m, Function.iterate_add_apply,
        animIter_fadeOut_swap]
      rcases Nat.lt_or_ge m FADE_DURATION with hlt | hge
      · rw [animIter_fadingIn_mk _ _ 0 m (by omega), Nat.zero_add]
        exact ⟨rfl, opacity_fadingIn_lt m hlt⟩
      · have hm' : m = FADE_DURATION := by omega
        subst hm'
        rw [animIter_fadeIn_complete_mk]
        constructor
        · rfl
        · simp [opacity, FADE_DURATION]

/-- Witness for C4 on a concrete two-item carousel: after the fade-out
completes, the displayed index has swapped to `(0 + 1) mod 2`. -/
theorem advance_fade_semantics_witness :
    2 ≤ ([mediaA, mediaB] : List MediaItem).length ∧
    (animStep^[FADE_DURATION]
        (advanceOnce ⟨[mediaA, mediaB], 0, Phase.idle⟩).1).currentIndex =
      (0 + 1) % ([mediaA, mediaB] : List MediaItem).length :=
  ⟨by decide,
    (advance_fade_semantics.2 ⟨[mediaA, mediaB], 0, Phase.idle⟩
      (by decide)).2.2.2.2.2.1⟩

/-- Claim C5 (counterexample): the source has no `isTransitioning` flag
and `advanceOnce` is guarded only by the item count.  At a state whose
transition is in progress (fade-out, 100 ms elapsed, opacity 3/4 > 0),
invoking `advanceOnce` is not a no-op: it starts a fresh fade-out and
dispatches prefetches again, so a second transition can begin while one
is active whenever an advance is invoked mid-transition. -/
theorem advance_unguarded_during_transition :
    0 < opacity (Phase.fadingOut 1 100) ∧
    (advanceOnce ⟨[mediaA, mediaB], 0, Phase.fadingOut 1 100⟩).1.phase =
      Phase.fadingOut 1 0 ∧
    (advanceOnce ⟨[mediaA, mediaB], 0, Phase.fadingOut 1 100⟩).2 ≠ [] := by
  refine ⟨?_, ?_, ?_⟩
  · have h : ¬ FADE_DURATION ≤ 100 := by simp [FADE_DURATION]
    simp [opacity, h, FADE_DURATION]
    norm_num
  · decide
  · decide

/-- Claim C5 (amended): serialization of transitions holds only through
timer spacing, not through a guard.  If advance invocations occur
punctually, consecutive invocations at least `DISPLAY_DURATION` apart
(the source schedules them `DISPLAY_DURATION + 2 * FADE_DURATION` apart
and restarts the schedule with a `DISPLAY_DURATION` delay on every list
change), then the transition windows of `2 * FADE_DURATION` milliseconds
are pairwise disjoint: at most one transition is active at any time. -/
theorem transitions_disjoint_under_punctual_schedule (f : Nat → Nat)
    (hgap : ∀ n, f n + DISPLAY_DURATION ≤ f (n + 1)) :
    ∀ t m n, m ≠ n →
      transitionActive (f m) t → transitionActive (f n) t → False := by
  have key : ∀ m n, m < n → f m + DISPLAY_DURATION ≤ f n := by
    intro m n h
    induction n with
    | zero => omega
    | succ n ihn =>
      rcases Nat.lt_succ_iff_lt_or_eq.mp h with h' | h'
      · have h1 := hgap n
        have h2 := ihn h'
        omega
      · subst h'
        exact hgap m
  intro t m n hmn h1 h2
  rcases Nat.lt_or_ge m n with h | h
  · have := key m n h
    simp only [transitionActive, FADE_DURATION, DISPLAY_DURATION] at h1 h2 this
    omega
  · have hnm : n < m := by omega
    have := key n m hnm
    simp only [transitionActive, FADE_DURATION, DISPLAY_DURATION] at h1 h2 this
    omega

/-- Witness for the amended C5 at the concrete schedule the source sets
up (`setInterval` period `DISPLAY_DURATION + 2 * FADE_DURATION`): no
instant lies in two transition windows. -/
theorem transitions_disjoint_witness :
    (∀ n, 5800 * n + DISPLAY_DURATION ≤ 5800 * (n + 1)) ∧
    ∀ t m n, m ≠ n →
      transitionActive (5800 * m) t → transitionActive (5800 * n) t →
        False := by
  have hgap : ∀ n, 5800 * n + DISPLAY_DURATION ≤ 5800 * (n + 1) := by
    intro n
    simp [DISPLAY_DURATION]
    omega
  exact ⟨hgap,
    transitions_disjoint_under_punctual_schedule (fun n => 5800 * n) hgap⟩

lemma smartPrefetchStep_preserves (images : List ImageItem)
    (cache : List String) (acc : List String × List String) (i : Nat)
    (h1 : acc.2 = cache ++ acc.1) (h2 : acc.1.Nodup)
    (h3 : ∀ u ∈ acc.1, u ∉ cache) :
    (smartPrefetchStep images acc i).2 =
        cache ++ (smartPrefetchStep images acc i).1 ∧
      (smartPrefetchStep images acc i).1.Nodup ∧
      ∀ u ∈ (smartPrefetchStep images acc i).1, u ∉ cache := by
  unfold smartPrefetchStep
  cases hurl : getImageUrl ((images.get? i).bind ImageItem.image) false 0 with
  | none => exact ⟨h1, h2, h3⟩
  | some url =>
    by_cases hmem : url ∈ acc.2
    · simp only [hmem, if_true]
      exact ⟨h1, h2, h3⟩
    · simp only [hmem, if_false]
      rw [h1] at hmem
      have hnotin1 : url ∉ acc.1 := fun hc =>
        hmem (List.mem_append_right cache hc)
      have hnotincache : url ∉ cache := fun hc =>
        hmem (List.mem_append_left acc.1 hc)
      refine ⟨?_, ?_, ?_⟩
      · simp [h1, List.append_assoc]
      · simp [List.nodup_append, h2, hnotin1]
      · intro u hu
        rcases List.mem_append.mp hu with h | h
        · exact h3 u h
        · simp only [List.mem_singleton] at h
          subst h
          exact hnotincache

lemma smartPrefetchStep_fold (images : List ImageItem)
    (cache : List String) :
    ∀ (L : List Nat) (acc : List String × List String),
      acc.2 = cache ++ acc.1 → acc.1.Nodup → (∀ u ∈ acc.1, u ∉ cache) →
      (L.foldl (smartPrefetchStep images) acc).2 =
          cache ++ (L.foldl (smartPrefetchStep images) acc).1 ∧
        (L.foldl (smartPrefetchStep images) acc).1.Nodup ∧
        ∀ u ∈ (L.foldl (smartPrefetchStep images) acc).1, u ∉ cache := by
  intro L
  induction L with
  | nil =>
    intro acc h1 h2 h3
    exact ⟨h1, h2, h3⟩
  | cons i L ihL =>
    intro acc h1 h2 h3
    rw [List.foldl_cons]
    obtain ⟨g1, g2, g3⟩ := smartPrefetchStep_preserves images cache acc i h1 h2 h3
    exact ihL (smartPrefetchStep images acc i) g1 g2 g3

lemma smartPrefetchForMarquee_spec (images : List ImageItem)
    (cache : List String) :
    (smartPrefetchForMarquee images cache).2 =
        cache ++ (smartPrefetchForMarquee images cache).1 ∧
      (smartPrefetchForMarquee images cache).1.Nodup ∧
      ∀ u ∈ (smartPrefetchForMarquee images cache).1, u ∉ cache := by
  unfold smartPrefetchForMarquee
  exact smartPrefetchStep_fold images cache
    (List.range (min MARQUEE_PREFETCH_BUFFER images.length)) ([], cache)
    (by simp) (by simp) (by simp)

/-- Claim C6 (counterexample): the carousel prefetcher keeps no
issued-set at all; a single trigger from position 0 of a two-item list
hands the same resolved URL to the prefetch subsystem twice within one
generation. -/
theorem carousel_prefetch_reissues_url :
    prefetchImages [mediaA, mediaB] 0 2 =
      [SERVER_URL ++ "/b", SERVER_URL ++ "/b"] ∧
    ¬ (prefetchImages [mediaA, mediaB] 0 2).Nodup := by
  constructor <;> decide

/-- Claim C6 (amended): the MARQUEE engine deduplicates per generation:
any trigger issues only URLs absent from the generation cache and issues
them pairwise distinct, the cache grows by exactly the issued URLs, so
two triggers against the same generation never repeat a URL; a
successful refresh clears the generation set (permitting re-issue).  The
CAROUSEL engine keeps no issued-set and can repeat URLs (see the
counterexample). -/
theorem marquee_prefetch_dedup (images : List ImageItem)
    (cache : List String) :
    (smartPrefetchForMarquee images cache).2 =
        cache ++ (smartPrefetchForMarquee images cache).1 ∧
      (∀ u ∈ (smartPrefetchForMarquee images cache).1, u ∉ cache) ∧
      (smartPrefetchForMarquee images cache).1.Nodup ∧
      ((smartPrefetchForMarquee images cache).1 ++
        (smartPrefetchForMarquee images
          (smartPrefetchForMarquee images cache).2).1).Nodup ∧
      ∀ (s : MarqueeState) (it : ImageItem) (rest : List ImageItem),
        (applyOutletFetchResult s
          (OutletOutcome.httpResponse true (some (it :: rest)))).prefetchCache
          = [] := by
  obtain ⟨spec1a, spec1b, spec1c⟩ := smartPrefetchForMarquee_spec images cache
  obtain ⟨spec2a, spec2b, spec2c⟩ :=
    smartPrefetchForMarquee_spec images (smartPrefetchForMarquee images cache).2
  refine ⟨spec1a, spec1c, spec1b, ?_, ?_⟩
  · rw [List.nodup_append]
    refine ⟨spec1b, spec2b, ?_⟩
    intro a ha hb
    have hnot := spec2c a hb
    rw [spec1a] at hnot
    exact hnot (List.mem_append_right cache ha)
  · intro s it rest
    simp [applyOutletFetchResult]

/-- Witness for the amended C6 at a concrete generation: two triggers
over the same two-item list issue pairwise distinct URLs overall. -/
theorem marquee_prefetch_dedup_witness :
    ((smartPrefetchForMarquee [outletA, outletB] []).1 ++
      (smartPrefetchForMarquee [outletA, outletB]
        (smartPrefetchForMarquee [outletA, outletB] []).2).1).Nodup :=
  (marquee_prefetch_dedup [outletA, outletB] []).2.2.2.1

/-- Claim C7 (code bug): the carousel look-ahead window is wrong.  On an
advance from position 0 of a three-item list (`nextIndex = 1`,
`prefetchImages(1, 2)`), the loop recomputes
`index = (startIndex + 1) % length` on every iteration because the loop
variable `i` is unused, so the code dispatches the URL of item 2 twice
instead of the URLs of items 1 and 2 — contradicting the claimed window
and the source comment and log line (`circular buffer`,
`Prefetched next 2 images`). -/
theorem advance_prefetch_window_wrong :
    (advanceOnce ⟨[mediaA, mediaB, mediaC], 0, Phase.idle⟩).2 =
      [SERVER_URL ++ "/c", SERVER_URL ++ "/c"] ∧
    (advanceOnce ⟨[mediaA, mediaB, mediaC], 0, Phase.idle⟩).2 ≠
      [SERVER_URL ++ "/b", SERVER_URL ++ "/c"] := by
  constructor <;> decide

/-- Claim C8 (counterexample): `getImageUrl` returns null for a path
that is present but empty (`!path` is JavaScript truthiness, not an
absence test), so "null if and only if the path is absent" fails. -/
theorem getImageUrl_empty_path_null :
    getImageUrl (some "") false 0 = none ∧
    (some "" : Option String) ≠ none := by
  constructor <;> decide

lemma getImageUrl_stable_eq (p : String) (hp : p ≠ "") (t : Nat) :
    getImageUrl (some p) false t = some (resolvedBase p) := by
  simp only [getImageUrl, resolvedBase]
  rw [if_neg hp]
  by_cases hh : p.startsWith "http" <;> simp [hh]

lemma getImageUrl_bust_eq (p : String) (hp : p ≠ "") (t : Nat) :
    getImageUrl (some p) true t =
      some (resolvedBase p ++ "?t=" ++ natToString t) := by
  simp only [getImageUrl, resolvedBase]
  rw [if_neg hp]
  by_cases hh : p.startsWith "http" <;> simp [hh, String.append_assoc]

/-- Claim C8 (amended): `getImageUrl` returns null exactly when the path
is absent OR empty; a non-empty path starting with `http` is returned
unchanged when cache-busting is off, any other non-empty path gets the
server base prepended; without cache-busting the result is identical
across calls; with cache-busting the result is the same resolved base
followed by `?t=` and the per-call timestamp, freshly computed — calls
at different instants give different strings differing only in that
suffix. -/
theorem getImageUrl_resolution (p : String) (hp : p ≠ "")
    (t t1 t2 : Nat) :
    (∀ (q : Option String) (b : Bool) (u : Nat),
      getImageUrl q b u = none ↔ (q = none ∨ q = some "")) ∧
    getImageUrl (some p) false t1 = getImageUrl (some p) false t2 ∧
    getImageUrl (some p) false t = some (resolvedBase p) ∧
    (p.startsWith "http" = true → resolvedBase p = p) ∧
    (p.startsWith "http" = false → resolvedBase p = SERVER_URL ++ p) ∧
    getImageUrl (some p) true t1 =
      some (resolvedBase p ++ "?t=" ++ natToString t1) ∧
    getImageUrl (some p) true t2 =
      some (resolvedBase p ++ "?t=" ++ natToString t2) ∧
    (t1 ≠ t2 →
      getImageUrl (some p) true t1 ≠ getImageUrl (some p) true t2) := by
  refine ⟨?_, ?_, ?_, ?_, ?_, ?_, ?_, ?_⟩
  · intro q b u
    match q with
    | none => simp [getImageUrl]
    | some s =>
      by_cases hs : s = ""
      · subst hs
        simp [getImageUrl]
      · simp only [getImageUrl, hs, if_false]
        constructor
        · intro hcontr
          by_cases hh : s.startsWith "http" <;> simp [hh] at hcontr
        · intro hcontr
          rcases hcontr with h | h
          · exact absurd h (by simp)
          · exact absurd (Option.some.inj h) hs
  · rw [getImageUrl_stable_eq p hp t1, getImageUrl_stable_eq p hp t2]
  · exact getImageUrl_stable_eq p hp t
  · intro hh
    simp [resolvedBase, hh]
  · intro hh
    simp [resolvedBase, hh]
  · exact getImageUrl_bust_eq p hp t1
  · exact getImageUrl_bust_eq p hp t2
  · intro hne heq
    rw [getImageUrl_bust_eq p hp t1, getImageUrl_bust_eq p hp t2] at heq
    have hdata := congrArg String.data (Option.some.inj heq)
    simp only [String.data_append] at hdata
    have hcore := List.append_cancel_left hdata
    exact hne (natToString_injective (by
      apply String.ext
      exact hcore))

/-- Witness for the amended C8: a concrete relative path resolves to
the server base plus path plus a fresh timestamp parameter. -/
theorem getImageUrl_resolution_witness :
    ("/x" : String) ≠ "" ∧
    getImageUrl (some "/x") true 1 =
      some (resolvedBase "/x" ++ "?t=" ++ natToString 1) :=
  ⟨by decide, (getImageUrl_resolution "/x" (by decide) 0 1 2).2.2.2.2.2.1⟩

/-- Claim C9 (confirmed): the marquee computes
`loopWidth = K * (itemW + spacing)` and a duration of `25` milliseconds
per pixel; the offset moves linearly from `0` toward `-loopWidth` within
a cycle, is `0` at every cycle boundary (instant reset), and is periodic
(restarts forever while the restart guard `finished && mounted` holds);
the doubled strip makes positions `i` and `i + K` carry identical
content, and after the reset jump by `loopWidth` the element `i + K`
occupies exactly the screen interval element `i` occupied at offset
`0`. -/
theorem marquee_loop_geometry (K itemW : Nat) (images : List ImageItem)
    (hK : images.length = K) :
    originalWidth K itemW = K * (itemW + MARQUEE_SPACING) ∧
    scrollDuration K itemW = MS_PER_PIXEL * originalWidth K itemW ∧
    (∀ t, t < scrollDuration K itemW →
      scrollOffset K itemW t =
        -((originalWidth K itemW : ℚ) * (t : ℚ) /
          (scrollDuration K itemW : ℚ))) ∧
    scrollOffset K itemW 0 = 0 ∧
    (∀ t, scrollOffset K itemW (t + scrollDuration K itemW) =
      scrollOffset K itemW t) ∧
    scrollOffset K itemW (scrollDuration K itemW) = 0 ∧
    (∀ i, i < K → (duplicatedImages images)[i]? =
      (duplicatedImages images)[i + K]?) ∧
    (∀ i : Nat, ((i + K) * (itemW + MARQUEE_SPACING) : ℤ) -
      (originalWidth K itemW : ℤ) = (i * (itemW + MARQUEE_SPACING) : ℤ)) ∧
    marqueeRestarts true true = true ∧
    (∀ fin, marqueeRestarts fin false = false) := by
  subst hK
  refine ⟨rfl, Nat.mul_comm _ _, ?_, ?_, ?_, ?_, ?_, ?_, rfl, ?_⟩
  · intro t ht
    have hd : scrollDuration images.length itemW ≠ 0 := by omega
    simp [scrollOffset, hd, Nat.mod_eq_of_lt ht]
  · by_cases hd : scrollDuration images.length itemW = 0 <;>
      simp [scrollOffset, hd]
  · intro t
    by_cases hd : scrollDuration images.length itemW = 0
    · simp [scrollOffset, hd]
    · simp [scrollOffset, hd, Nat.add_mod_right]
  · by_cases hd : scrollDuration images.length itemW = 0 <;>
      simp [scrollOffset, hd, Nat.mod_self]
  · intro i hi
    simp only [duplicatedImages]
    rw [List.getElem?_append_left hi, List.getElem?_append_right (by omega)]
    simp
  · intro i
    push_cast [originalWidth]
    ring
  · intro fin
    simp [marqueeRestarts]

/-- Witness for C9 on a concrete two-item strip: the scroll duration is
proportional to the loop width at 25 ms per pixel. -/
theorem marquee_loop_geometry_witness :
    ([outletA, outletB] : List ImageItem).length = 2 ∧
    scrollDuration 2 100 = MS_PER_PIXEL * originalWidth 2 100 :=
  ⟨by decide, (marquee_loop_geometry 2 100 [outletA, outletB] (by decide)).2.1⟩

/-- Claim C10 (counterexample): for an item whose `id` is present but
empty, the render identity is the `outlet_id`, not the `id`:
JavaScript `||` skips the empty string, so "id if present" fails. -/
theorem imageId_ignores_empty_id :
    imageId ⟨some "", none, none, some "o7"⟩ 0 = "o7" ∧
    claimImageId ⟨some "", none, none, some "o7"⟩ 0 = "" ∧
    imageId ⟨some "", none, none, some "o7"⟩ 0 ≠
      claimImageId ⟨some "", none, none, some "o7"⟩ 0 := by
  refine ⟨?_, ?_, ?_⟩ <;> decide

/-- Claim C10 (amended): the render identity is `id` if present and
non-empty, else `outlet_id` if present and non-empty, else the
positional fallback `image-<position>`; every element of the doubled
render list gets the key `<identity>-<position>`, unique within the
render pass (the position is recoverable from the suffix after the last
dash); and the per-item failure flag set by `handleImageError` and
cleared by the load-start handler is keyed by this same identity. -/
theorem render_identity_three_tier (item it2 : ImageItem) (i j : Nat)
    (s : String) (errors : List String) :
    (item.id = some s → s ≠ "" → imageId item i = s) ∧
    ((item.id = none ∨ item.id = some "") → item.outlet_id = some s →
      s ≠ "" → imageId item i = s) ∧
    ((item.id = none ∨ item.id = some "") →
      (item.outlet_id = none ∨ item.outlet_id = some "") →
      imageId item i = "image-" ++ natToString i) ∧
    (i ≠ j → renderKey item i ≠ renderKey it2 j) ∧
    hasError (handleImageError errors (imageId item i)) item i = true ∧
    (errors.Nodup →
      hasError (onLoadStart errors (imageId item i)) item i = false) := by
  refine ⟨?_, ?_, ?_, ?_, ?_, ?_⟩
  · intro h hs
    simp [imageId, jsOr, h, hs]
  · intro hid houtlet hs
    rcases hid with h | h <;> simp [imageId, jsOr, h, houtlet, hs]
  · intro hid houtlet
    rcases hid with h | h <;> rcases houtlet with h2 | h2 <;>
      simp [imageId, jsOr, h, h2]
  · intro hij heq
    exact hij (renderKey_position_injective item it2 i j heq)
  · by_cases hmem : imageId item i ∈ errors <;>
      simp [hasError, handleImageError, hmem]
  · intro hnd
    by_cases hmem : imageId item i ∈ errors
    · simp only [onLoadStart, hmem, if_true, hasError]
      simp [hnd.not_mem_erase]
    · simp [onLoadStart, hasError, hmem]

/-- Witness for the amended C10: two distinct positions of the doubled
list get distinct render keys even for identical items with no ids. -/
theorem render_identity_three_tier_witness :
    (0 : Nat) ≠ 1 ∧
    renderKey ⟨none, none, none, none⟩ 0 ≠
      renderKey ⟨none, none, none, none⟩ 1 :=
  ⟨by decide,
    (render_identity_three_tier ⟨none, none, none, none⟩
      ⟨none, none, none, none⟩ 0 1 "x" []).2.2.2.1 (by decide)⟩

end Signage
